import Mathlib

/-!
Verification of the request-orchestration engine of the `lfab_coemon_api_puller`
Splunk app (files `bin/utils/api_handler.py`, `bin/utils/process_registry.py`,
`bin/utils/processors.py`, `bin/utils/oauth_handler.py`).

The Python code is shallowly embedded: JSON values are a mutual inductive,
Python dicts are ordered association lists, the HTTP transport and the artifact
file write are oracles carried in an environment, and observable side effects
(transport calls, artifact writes, hook invocations, skip logs) are collected
in an event trace.  Machine integers do not occur (Python ints are unbounded),
so `Nat`/`Int` are used directly.
-/

namespace ApiPuller

/- A JSON value as produced by `response.json()`.  Mutual with explicit list
types so that all recursion over it is structural. -/
mutual
inductive Json where
  | null
  | boolean (b : Bool)
  | num (n : Int)
  | str (s : String)
  | arr (xs : JsonArr)
  | obj (fs : JsonObj)

inductive JsonArr where
  | nil
  | cons (hd : Json) (tl : JsonArr)

inductive JsonObj where
  | nil
  | cons (k : String) (v : Json) (tl : JsonObj)
end

/-- Build a JSON array from a Lean list. -/
def jarr (l : List Json) : Json :=
  Json.arr (l.foldr (fun j acc => JsonArr.cons j acc) JsonArr.nil)

/-- Build a JSON object from a Lean association list (Python dicts keep
insertion order, which the list order models). -/
def jobj (l : List (String × Json)) : Json :=
  Json.obj (l.foldr (fun p acc => JsonObj.cons p.1 p.2 acc) JsonObj.nil)

def JsonArr.toList : JsonArr → List Json
  | .nil => []
  | .cons hd tl => hd :: tl.toList

def JsonObj.toList : JsonObj → List (String × Json)
  | .nil => []
  | .cons k v tl => (k, v) :: tl.toList

/-- Python `d.get(key)` / `key in d` on a dict. -/
def JsonObj.find? : JsonObj → String → Option Json
  | .nil, _ => none
  | .cons k v tl, key => if k = key then some v else tl.find? key

/-- Python `d[key] = v`: replaces the value in place if the key exists,
otherwise appends (insertion order). -/
def JsonObj.setKey : JsonObj → String → Json → JsonObj
  | .nil, key, v => .cons key v .nil
  | .cons k0 v0 tl, key, v =>
    if k0 = key then .cons key v tl else .cons k0 v0 (tl.setKey key v)

/-- `config.get(key)` when the config is a dict; `none` otherwise. -/
def Json.getKey? : Json → String → Option Json
  | .obj fs, key => fs.find? key
  | _, _ => none

/-- `config[key] = v` when the config is a dict (no-op on non-dicts, which do
not occur in the modelled flows). -/
def Json.setKey : Json → String → Json → Json
  | .obj fs, key, v => .obj (fs.setKey key v)
  | other, _, _ => other

/-- Python truthiness of a JSON value. -/
def Json.truthy : Json → Bool
  | .null => false
  | .boolean b => b
  | .num n => n != 0
  | .str s => s != ""
  | .arr .nil => false
  | .arr (.cons _ _) => true
  | .obj .nil => false
  | .obj (.cons _ _ _) => true

/- Python `repr` of a parsed-JSON value (dicts print with braces and quoted
keys, which is what makes substituted dict values trip the brace check of the
nested orchestrator). -/
mutual
def Json.pyRepr : Json → String
  | .null => "None"
  | .boolean true => "True"
  | .boolean false => "False"
  | .num n => toString n
  | .str s => "\x27" ++ s ++ "\x27"
  | .arr xs => "[" ++ xs.pyReprItems ++ "]"
  | .obj fs => "\x7b" ++ fs.pyReprItems ++ "\x7d"

def JsonArr.pyReprItems : JsonArr → String
  | .nil => ""
  | .cons hd .nil => hd.pyRepr
  | .cons hd tl => hd.pyRepr ++ ", " ++ tl.pyReprItems

def JsonObj.pyReprItems : JsonObj → String
  | .nil => ""
  | .cons k v .nil => "\x27" ++ k ++ "\x27: " ++ v.pyRepr
  | .cons k v tl => "\x27" ++ k ++ "\x27: " ++ v.pyRepr ++ ", " ++ tl.pyReprItems
end

/-- Python `str` of a parsed-JSON value (`str` of a string is the string
itself, everything else falls back to `repr`). -/
def Json.pyStr : Json → String
  | .str s => s
  | j => j.pyRepr

/-- Python `str.replace` (all non-overlapping occurrences, left to right),
with an explicit fuel bound so the recursion is structural.  `pyReplace` below
always supplies enough fuel. -/
def pyReplaceAux (pat repl : List Char) : Nat → List Char → List Char
  | 0, s => s
  | Nat.succ fuel, s =>
    match s with
    | [] => []
    | c :: rest =>
      if pat ≠ [] ∧ pat.isPrefixOf s then repl ++ pyReplaceAux pat repl fuel (s.drop pat.length)
      else c :: pyReplaceAux pat repl fuel rest

def pyReplace (s pat repl : String) : String :=
  ⟨pyReplaceAux pat.data repl.data s.data.length s.data⟩

/-- Python `pat in s` (substring containment). -/
def containsSubAux (pat : List Char) : List Char → Bool
  | [] => pat.isPrefixOf []
  | c :: rest => pat.isPrefixOf (c :: rest) || containsSubAux pat rest

def strContainsSub (s pat : String) : Bool := containsSubAux pat.data s.data

/-- Python `s.split(".")`. -/
def splitDotAux : List Char → List (List Char)
  | [] => [[]]
  | c :: rest =>
    match splitDotAux rest with
    | [] => []
    | h :: t => if c = '.' then [] :: h :: t else (c :: h) :: t

def splitDot (s : String) : List String := (splitDotAux s.data).map (fun l => ⟨l⟩)

/-- The unresolved-placeholder test of `call_nested_apis` (api_handler.py
lines 313 and 328): the URL contains a left brace and a right brace anywhere. -/
def hasBraces (s : String) : Bool :=
  s.data.any (· = '\x7b') && s.data.any (· = '\x7d')

/-- The `f"{{{key}}}"` placeholder string built for a field name. -/
def placeholderOf (key : String) : String := "\x7b" ++ key ++ "\x7d"

/-- Python `str.upper` restricted to what `method.upper()` needs. -/
def pyUpper (s : String) : String := ⟨s.data.map Char.toUpper⟩

/-- Python `str.isdigit` (ASCII digits suffice for the modelled inputs). -/
def pyIsDigit (s : String) : Bool := s != "" && s.data.all Char.isDigit

/-- `int(part)` on a digit string. -/
def digitsToNat (s : String) : Nat :=
  s.data.foldl (fun n c => n * 10 + (c.toNat - 48)) 0

/-- `config.get(key)` expecting a string, with a default. -/
def getStrD (config : Json) (key : String) (default : String) : String :=
  match config.getKey? key with
  | some (Json.str s) => s
  | _ => default

/-- Python `d[k] = v` on an association list with arbitrary values. -/
def pyDictSet {α : Type} (d : List (String × α)) (k : String) (v : α) :
    List (String × α) :=
  if d.any (fun p => p.1 == k) then d.map (fun p => if p.1 == k then (k, v) else p)
  else d ++ [(k, v)]

/-- Python `d.update(extra)`: existing keys keep their position and get the new
value, new keys are appended in iteration order. -/
def pyDictUpdate {α : Type} (d extra : List (String × α)) : List (String × α) :=
  extra.foldl (fun acc p => pyDictSet acc p.1 p.2) d

/-- A `requests.Response` as observed by this code: the status code, the raw
body text, and the result of `.json()` (`none` models the `ValueError` raised
on a non-JSON body). -/
structure PyResponse where
  status_code : Nat
  text : String
  jsonBody : Option Json

/-- A Python value flowing through the response pipeline: `None`, a parsed
JSON value, a plain string, or the `requests.Response` object itself (which is
what `ProcessorRegistry.run_postprocessor` hands back on failure). -/
inductive PyValue where
  | pyNone
  | json (j : Json)
  | str (s : String)
  | resp (r : PyResponse)

/-- Python `str` of a pipeline value; `str` of a `requests.Response` renders
as `<Response [code]>`. -/
def PyValue.pyStr : PyValue → String
  | .pyNone => "None"
  | .json j => j.pyStr
  | .str s => s
  | .resp r => "<Response [" ++ toString r.status_code ++ "]>"

/- A registered processor is a Python function that may raise (`Except.error`)
or return a value; a returned Python `None` is `some Json`-free: preprocessors
signal it with `Option.none`, postprocessors with `PyValue.pyNone`.  The second
argument is the keyword-argument dict (`**kwargs`). -/

/-- A preprocessor: `(api_config, **kwargs) -> api_config | None`, may raise. -/
def PreProcessorFn : Type := Json → Json → Except String (Option Json)

/-- A postprocessor: `(response, **kwargs) -> Any`, may raise. -/
def PostProcessorFn : Type := PyResponse → Json → Except String PyValue

/-- An output processor: `(data, endpoint, **kwargs) -> bool`, may raise. -/
def OutputProcessorFn : Type := PyValue → String → Json → Except String Bool

/-- `ProcessorRegistry` (process_registry.py lines 8-16): three name-indexed
processor tables. -/
structure ProcessorRegistry where
  preprocessors : List (String × PreProcessorFn)
  postprocessors : List (String × PostProcessorFn)
  output_processors : List (String × OutputProcessorFn)

/-- `ProcessorRegistry.run_preprocessor` (process_registry.py lines 138-159):
unknown name returns the config unchanged; a raised exception or a `None`
return also degrade to the unchanged config.  The total return type is the
shallow embedding of "never propagates an exception to the caller". -/
def ProcessorRegistry.run_preprocessor (r : ProcessorRegistry) (name : String)
    (api_config : Json) (kwargs : Json) : Json :=
  match r.preprocessors.lookup name with
  | none => api_config
  | some f =>
    match f api_config kwargs with
    | .error _ => api_config
    | .ok none => api_config
    | .ok (some result) => result

/-- `ProcessorRegistry.run_postprocessor` (process_registry.py lines 161-182):
unknown name, a raised exception, and a `None` return all hand back the
`requests.Response` object itself (`return response`). -/
def ProcessorRegistry.run_postprocessor (r : ProcessorRegistry) (name : String)
    (response : PyResponse) (kwargs : Json) : PyValue :=
  match r.postprocessors.lookup name with
  | none => PyValue.resp response
  | some f =>
    match f response kwargs with
    | .error _ => PyValue.resp response
    | .ok PyValue.pyNone => PyValue.resp response
    | .ok result => result

/-- `ProcessorRegistry.run_output_processor` (process_registry.py lines
184-205): unknown name and a raised exception both return `False`. -/
def ProcessorRegistry.run_output_processor (r : ProcessorRegistry) (name : String)
    (data : PyValue) (endpoint : String) (kwargs : Json) : Bool :=
  match r.output_processors.lookup name with
  | none => false
  | some f =>
    match f data endpoint kwargs with
    | .error _ => false
    | .ok b => b

/-- What `_save_response` writes into the artifact file, one constructor per
branch of api_handler.py lines 80-101. -/
inductive SavedContent where
  | flattenOut (s : String)
  | splitOut (lines : List String)
  | jsonDump (j : Json)
  | textOut (s : String)
  | errorReport (code : Nat) (body : String)
  | pyStrOut (s : String)

/-- Observable effects of one orchestration run. -/
inductive Event where
  | request (method url : String)
  | saved (endpoint : String) (data : PyValue) (is_error : Bool)
      (status_code : Option Nat) (content : SavedContent)
  | saveFailed (endpoint : String)
  | ranPost (name : String)
  | ranOutput (name : String)
  | skippedChild (url : String)

/-- The `"__split_json_output"` value must be a list of strings for
`"\n".join` to succeed. -/
def JsonArr.asStringList : JsonArr → Option (List String)
  | .nil => some []
  | .cons (Json.str s) tl => (tl.asStringList).map (s :: ·)
  | .cons _ _ => none

/-- The branch structure of `_save_response` (api_handler.py lines 80-101):
which content the `open`/`write` block produces, or `none` when the write
itself raises (e.g. `f.write` on a non-string flatten marker). -/
def saveContent (response_data : PyValue) (is_error : Bool)
    (status_code : Option Nat) : Option SavedContent :=
  match response_data with
  | PyValue.json (Json.obj fs) =>
    match fs.find? "__flatten_json_output" with
    | some (Json.str s) => some (SavedContent.flattenOut s)
    | some _ => none
    | none =>
      match fs.find? "__split_json_output" with
      | some (Json.arr xs) => (xs.asStringList).map SavedContent.splitOut
      | some _ => none
      | none => some (SavedContent.jsonDump (Json.obj fs))
  | PyValue.str s => some (SavedContent.textOut s)
  | d =>
    match status_code with
    | some code =>
      if is_error && (code != 0) then some (SavedContent.errorReport code d.pyStr)
      else some (SavedContent.pyStrOut d.pyStr)
    | none => some (SavedContent.pyStrOut d.pyStr)

/-- `APIHandler._save_response` (api_handler.py lines 52-106).  The `write_ok`
flag is the oracle for whether the file write raises; every exception is caught
inside `_save_response` (the `except` at line 105 only logs), so the function
returns a trace fragment and never a failure. -/
def save_response (write_ok : Bool) (endpoint : String) (response_data : PyValue)
    (is_error : Bool) (status_code : Option Nat) : List Event :=
  match saveContent response_data is_error status_code with
  | none => [Event.saveFailed endpoint]
  | some content =>
    if write_ok then [Event.saved endpoint response_data is_error status_code content]
    else [Event.saveFailed endpoint]

/-- The environment of an `APIHandler`: the HTTP transport (an `Except.error`
models a raised `requests` exception), the default headers produced by
`_prepare_headers()`, and the artifact-write oracle. -/
structure Env where
  http : String → String → Json → List (String × Json) → Option Json →
    Except String PyResponse
  prepared_headers : List (String × Json)
  write_ok : Bool

def Env.setWriteOk (env : Env) (b : Bool) : Env :=
  { env with write_ok := b }

/-- The `name`/`args` extraction shared by the three hook sites of
`call_single_api` (api_handler.py lines 126-131, 178-183, 203-208): the key
must be present and a dict, and its `name` must be truthy.  Hook names are
modelled as strings (registry keys are strings, so a non-string name never
resolves and is outside every claim). -/
def hookOf (api_config : Json) (key : String) : Option (String × Json) :=
  match api_config.getKey? key with
  | some (Json.obj fs) =>
    match fs.find? "name" with
    | some (Json.str name) =>
      if name = "" then none
      else some (name, (fs.find? "args").getD (jobj []))
    | _ => none
  | _ => none

/-- The preprocessor stage of `call_single_api` (api_handler.py lines
126-133): the possibly-replaced config. -/
def prepareConfig (registry : ProcessorRegistry) (api_config : Json) : Json :=
  match hookOf api_config "preprocess" with
  | some (name, args) => registry.run_preprocessor name api_config args
  | none => api_config

/-- The transport-call ingredients of `call_single_api` (api_handler.py lines
135-158): url, upper-cased method defaulting to GET, params, default headers
updated with the per-call headers, and the JSON body (omitted when falsy). -/
structure PreparedRequest where
  method : String
  url : String
  params : Json
  headers : List (String × Json)
  bodyArg : Option Json

def headerListOf (j : Option Json) : List (String × Json) :=
  match j with
  | some (Json.obj fs) => fs.toList
  | _ => []

def prepareRequest (env : Env) (api_config : Json) : PreparedRequest :=
  let body := (api_config.getKey? "body").getD (jobj [])
  { method := pyUpper (getStrD api_config "method" "GET")
    url := getStrD api_config "url" ""
    params := (api_config.getKey? "params").getD (jobj [])
    headers := pyDictUpdate env.prepared_headers (headerListOf (api_config.getKey? "headers"))
    bodyArg := if body.truthy then some body else none }

/-- The response-interpretation stage of `call_single_api` (api_handler.py
lines 170-200): the processed data.  When `.json()` raises, the text is used
and no postprocessor runs; the
`PyValue.pyNone` branch mirrors the source's `post_result is not None` check
and its re-parse fallback (lines 188-196), which is unreachable because
`run_postprocessor` substitutes the response object for `None`. -/
def processResponse (registry : ProcessorRegistry) (api_config : Json)
    (response : PyResponse) : PyValue :=
  match response.jsonBody with
  | none => PyValue.str response.text
  | some response_data =>
    match hookOf api_config "postprocess" with
    | none => PyValue.json response_data
    | some (name, args) =>
      match registry.run_postprocessor name response args with
      | PyValue.pyNone =>
        (match response.jsonBody with
         | some d => PyValue.json d
         | none => PyValue.str response.text)
      | v => v

/-- The postprocessor-invocation log of the same stage: the hook runs exactly
when the body parsed as JSON and a postprocess name is configured. -/
def postEventsOf (api_config : Json) (response : PyResponse) : List Event :=
  match response.jsonBody with
  | none => []
  | some _ =>
    match hookOf api_config "postprocess" with
    | none => []
    | some (name, _) => [Event.ranPost name]

/-- The output stage of `call_single_api` (api_handler.py lines 202-216): run
the output hook if configured; a truthy return skips default persistence,
otherwise `_save_response` runs. -/
def outputStage (env : Env) (registry : ProcessorRegistry) (api_config : Json)
    (url : String) (processed_data : PyValue) : List Event :=
  match hookOf api_config "output" with
  | some (name, args) =>
    if registry.run_output_processor name processed_data url args then
      [Event.ranOutput name]
    else Event.ranOutput name :: save_response env.write_ok url processed_data false none
  | none => save_response env.write_ok url processed_data false none

/-- Everything `call_single_api` does after a response arrives (api_handler.py
lines 161-218): error responses are persisted as error artifacts and returned
without post/output processing; otherwise the processed data flows to the
output stage. -/
def responseTrace (env : Env) (registry : ProcessorRegistry) (api_config : Json)
    (url : String) (response : PyResponse) : List Event :=
  if 400 ≤ response.status_code then
    save_response env.write_ok url (PyValue.str response.text) true (some response.status_code)
  else
    postEventsOf api_config response ++
      outputStage env registry api_config url (processResponse registry api_config response)

/-- `APIHandler.call_single_api` (api_handler.py lines 108-222): returns the
`requests.Response` (or `None` when the transport raised — the `except` at
line 220) together with the event trace.  Every branch of the source returns
`response`, so the first component only depends on the transport outcome. -/
def call_single_api (env : Env) (registry : ProcessorRegistry)
    (api_config0 : Json) : Option PyResponse × List Event :=
  let api_config := prepareConfig registry api_config0
  let r := prepareRequest env api_config
  match env.http r.method r.url r.params r.headers r.bodyArg with
  | .error _ => (none, [Event.request r.method r.url])
  | .ok response =>
    (some response,
     Event.request r.method r.url :: responseTrace env registry api_config r.url response)

/-- The `items_path` walk of `call_nested_apis` (api_handler.py lines
250-268): empty segments are skipped, dict segments must be present keys,
list segments must be in-range digit strings; anything else aborts
(`none`). -/
def navigateItemsPath : Json → List String → Option Json
  | data, [] => some data
  | data, part :: rest =>
    if part = "" then navigateItemsPath data rest
    else
      match data with
      | Json.obj fs =>
        match fs.find? part with
        | some v => navigateItemsPath v rest
        | none => none
      | Json.arr xs =>
        if pyIsDigit part then
          match xs.toList.get? (digitsToNat part) with
          | some v => navigateItemsPath v rest
          | none => none
        else none
      | _ => none

/-- One substitution pass of `call_nested_apis` (api_handler.py lines 306-310
and 321-325): for each field in iteration order, replace its `\x7bkey\x7d`
placeholder by `str(value)` if present. -/
def substItems (fields : List (String × Json)) (url : String) : String :=
  fields.foldl
    (fun u p =>
      if strContainsSub u (placeholderOf p.1) then
        pyReplace u (placeholderOf p.1) p.2.pyStr
      else u)
    url

/-- The two-pass URL resolution for one (item, child) pair (api_handler.py
lines 301-325): substitute from the item's fields, then — only if a brace pair
remains — from the parent response's top-level fields (when the parent is a
dict). -/
def resolveChildUrl (itemFields : List (String × Json)) (parent_data : Json)
    (url0 : String) : String :=
  let url1 := substItems itemFields url0
  if hasBraces url1 then
    match parent_data with
    | Json.obj pfs => substItems pfs.toList url1
    | _ => url1
  else url1

/-- The item-to-fields coercion of `call_nested_apis` (api_handler.py lines
291-293): a non-dict item becomes `\x7b"item": item\x7d`. -/
def itemFieldsOf : Json → List (String × Json)
  | Json.obj fs => fs.toList
  | other => [("item", other)]

/-- Processing of one (item, child) pair (api_handler.py lines 297-341):
`child_config.copy()` is modelled by value semantics (`Json.setKey` builds a
new object), the resolved URL either still has a brace pair — the pair is
skipped with a logged error and no transport call — or the child API is
called.  `time.sleep(interval)` has no observable effect in the model. -/
def processChild (env : Env) (registry : ProcessorRegistry) (parent_data : Json)
    (itemFields : List (String × Json)) (child_config : Json) : List Event :=
  let url := resolveChildUrl itemFields parent_data (getStrD child_config "url" "")
  if hasBraces url then [Event.skippedChild url]
  else (call_single_api env registry (child_config.setKey "url" (Json.str url))).2

/-- The inner loop over child specs for one item (api_handler.py line 297). -/
def processChildren (env : Env) (registry : ProcessorRegistry) (parent_data : Json)
    (itemFields : List (String × Json)) (children : List Json) : List Event :=
  children.flatMap (processChild env registry parent_data itemFields)

/-- The outer loop over items (api_handler.py line 289). -/
def processAllItems (env : Env) (registry : ProcessorRegistry) (parent_data : Json)
    (items : List Json) (children : List Json) : List Event :=
  items.flatMap (fun item => processChildren env registry parent_data (itemFieldsOf item) children)

/-- The target classification of `call_nested_apis` (api_handler.py lines
274-286): a list is iterated item-wise, a dict is a single item, a scalar is
wrapped as `\x7b<last path segment or "value">: target\x7d`. -/
def itemsFrom (items_path : String) (target_data : Json) : List Json :=
  match target_data with
  | Json.arr xs => xs.toList
  | Json.obj fs => [Json.obj fs]
  | scalar =>
    let key_name := if items_path ≠ "" then (splitDot items_path).getLastD "value" else "value"
    [jobj [(key_name, scalar)]]

/-- `APIHandler.call_nested_apis` (api_handler.py lines 224-346): call the
parent, give up (with only the parent's trace) if it failed, returned an error
status, its body is not JSON, or the items path does not resolve; otherwise
fan out over (item, child) pairs. -/
def call_nested_apis (env : Env) (registry : ProcessorRegistry)
    (parent_api_config : Json) (child_api_configs : List Json) : List Event :=
  let res := call_single_api env registry parent_api_config
  match res.1 with
  | none => res.2
  | some parent_response =>
    if 400 ≤ parent_response.status_code then res.2
    else
      match parent_response.jsonBody with
      | none => res.2
      | some parent_data =>
        let items_path := getStrD parent_api_config "items_path" ""
        match (if items_path ≠ "" then navigateItemsPath parent_data (splitDot items_path)
               else some parent_data) with
        | none => res.2
        | some target_data =>
          res.2 ++ processAllItems env registry parent_data
            (itemsFrom items_path target_data) child_api_configs

/-- The transport calls recorded in a trace, in order. -/
def requestUrls (events : List Event) : List String :=
  events.filterMap (fun e =>
    match e with
    | Event.request _ url => some url
    | _ => none)

/-- The default-persistence artifacts recorded in a trace:
(endpoint, data, is_error, status_code, file content). -/
def savedArtifacts (events : List Event) :
    List (String × PyValue × Bool × Option Nat × SavedContent) :=
  events.filterMap (fun e =>
    match e with
    | Event.saved endpoint data is_error status_code content =>
      some (endpoint, data, is_error, status_code, content)
    | _ => none)

/-- The hook invocations (post/output) recorded in a trace. -/
def hookRuns (events : List Event) : List Event :=
  events.filter (fun e =>
    match e with
    | Event.ranPost _ => true
    | Event.ranOutput _ => true
    | _ => false)

/-- `OAuthHandler`'s mutable token cache (oauth_handler.py lines 23-24);
time is in seconds. -/
structure OAuthHandler where
  token : Option String
  token_expiry : Option Int

/-- What the token endpoint answers: status, `access_token`, and `expires_in`
(the source's 3600 default for a missing `expires_in` is folded into the
oracle's value). -/
structure TokenFetch where
  status_code : Nat
  access_token : Option String
  expires_in : Int

/-- `OAuthHandler._request_new_token` (oauth_handler.py lines 44-84): on a 200
answer store the token and `now + expires_in`; on any other status or a raised
exception clear both. -/
def OAuthHandler.request_new_token (now : Int) (fetch : Except String TokenFetch) :
    OAuthHandler :=
  match fetch with
  | .error _ => { token := none, token_expiry := none }
  | .ok td =>
    if td.status_code = 200 then
      { token := td.access_token, token_expiry := some (now + td.expires_in) }
    else { token := none, token_expiry := none }

/-- The refresh condition of `OAuthHandler.get_token` (oauth_handler.py lines
37-39): no token, no recorded expiry, or `now + 4 hours ≥ expiry`. -/
def OAuthHandler.needsRefresh (st : OAuthHandler) (now : Int) : Bool :=
  match st.token, st.token_expiry with
  | some _, some e => decide (now + 4 * 3600 ≥ e)
  | _, _ => true

/-- `OAuthHandler.get_token` (oauth_handler.py lines 27-42): returns the token
handed to the caller, the new cache state, and how many refresh requests were
performed. -/
def OAuthHandler.get_token (st : OAuthHandler) (now : Int)
    (fetch : Except String TokenFetch) : Option String × OAuthHandler × Nat :=
  if st.needsRefresh now then
    let st2 := OAuthHandler.request_new_token now fetch
    (st2.token, st2, 1)
  else (st.token, st, 0)

/- A small mutable-heap model of Python dicts, needed where reference sharing
is observable: `dict.copy()` is shallow, so the `updated_config["headers"]
.update(...)` of `preprocess_add_headers` (processors.py lines 64-90) writes
through to the dict the caller's original config still references. -/

/-- A value stored in a dict: an immutable (JSON) scalar, or a reference to
another dict in the heap. -/
inductive HValue where
  | prim (j : Json)
  | dict (addr : Nat)

/-- The heap: dict number `a` is `dicts[a]` (allocation appends). -/
structure Heap where
  dicts : List (List (String × HValue))

def Heap.get (h : Heap) (a : Nat) : List (String × HValue) :=
  h.dicts.getD a []

def Heap.set (h : Heap) (a : Nat) (d : List (String × HValue)) : Heap :=
  ⟨h.dicts.set a d⟩

def Heap.alloc (h : Heap) (d : List (String × HValue)) : Heap × Nat :=
  (⟨h.dicts ++ [d]⟩, h.dicts.length)

def assocFind (d : List (String × HValue)) (k : String) : Option HValue :=
  (d.find? (fun p => p.1 == k)).map (·.2)

/-- A preprocessor on the heap: `(heap, api_config address, **kwargs) →
(heap, returned config address)`. -/
def HeapPreProcessorFn : Type :=
  Heap → Nat → List (String × HValue) → Heap × Nat

/-- `preprocess_add_headers` (processors.py lines 64-90) on the heap.
`api_config.copy()` is a shallow copy: the new dict shares every nested dict
reference, in particular the `headers` dict.  `updated_config["headers"]
.update(headers)` then mutates that shared dict in place.  The broad `except`
(line 88) returns the original config when `.update` raises. -/
def preprocess_add_headers_heap : HeapPreProcessorFn := fun h api_config kwargs =>
  let copied := Heap.alloc h (Heap.get h api_config)
  let h1 := copied.1
  let updated := copied.2
  let h2 :=
    match assocFind (Heap.get h1 updated) "headers" with
    | some _ => h1
    | none =>
      let fresh := Heap.alloc h1 []
      Heap.set fresh.1 updated
        (pyDictSet (Heap.get fresh.1 updated) "headers" (HValue.dict fresh.2))
  match assocFind kwargs "headers" with
  | some (HValue.prim _) => (h2, api_config)
  | extraRef =>
    let extra :=
      match extraRef with
      | some (HValue.dict ka) => Heap.get h2 ka
      | _ => []
    match assocFind (Heap.get h2 updated) "headers" with
    | some (HValue.dict haddr) =>
      (Heap.set h2 haddr (pyDictUpdate (Heap.get h2 haddr) extra), updated)
    | _ => (h2, api_config)

/-- `run_preprocessor` dispatch on the heap (process_registry.py lines
150-156): unknown name returns the config unchanged; the registered heap
preprocessors handle their own exceptions (as `preprocess_add_headers`
does). -/
def run_preprocessor_heap (reg : List (String × HeapPreProcessorFn))
    (name : String) (h : Heap) (api_config : Nat)
    (kwargs : List (String × HValue)) : Heap × Nat :=
  match reg.lookup name with
  | none => (h, api_config)
  | some f => f h api_config kwargs

/-- The preprocessor stage of `call_single_api` (api_handler.py lines
126-133) on the heap: read `preprocess.name` / `preprocess.args` from the
config dict and dispatch.  `args` is modelled as a dict (a non-mapping `args`
would raise at the `**args` call site, outside every claim). -/
def call_single_api_preprocessStage (reg : List (String × HeapPreProcessorFn))
    (h : Heap) (api_config : Nat) : Heap × Nat :=
  match assocFind (Heap.get h api_config) "preprocess" with
  | some (HValue.dict pa) =>
    match assocFind (Heap.get h pa) "name" with
    | some (HValue.prim (Json.str name)) =>
      if name = "" then (h, api_config)
      else
        let kwargs :=
          match assocFind (Heap.get h pa) "args" with
          | some (HValue.dict aa) => Heap.get h aa
          | _ => []
        run_preprocessor_heap reg name h api_config kwargs
    | _ => (h, api_config)
  | _ => (h, api_config)

/-! Concrete test fixtures used by the claim theorems, witnesses and
counterexamples below. -/

def emptyRegistry : ProcessorRegistry := ⟨[], [], []⟩

/-- Transport for the C2 scenario: the parent answers with
`\x7b"items": [\x7b"id": 1\x7d, \x7b"id": 2\x7d]\x7d`, every other URL with a
plain-text 200. -/
def httpC2 : String → String → Json → List (String × Json) → Option Json →
    Except String PyResponse :=
  fun _ url _ _ _ =>
    if url = "/parent" then
      .ok ⟨200, "parentbody",
        some (jobj [("items", jarr [jobj [("id", Json.num 1)], jobj [("id", Json.num 2)]])])⟩
    else .ok ⟨200, "ok", none⟩

def envC2 : Env := ⟨httpC2, [("Content-Type", Json.str "application/json")], true⟩

def parentC2 : Json := jobj [("url", Json.str "/parent"), ("items_path", Json.str "items")]

def childC2 : Json := jobj [("url", Json.str "/child/\x7bid\x7d")]

/-- Transport for the C7 scenario: the parent answers with `\x7b"id": 7\x7d`. -/
def httpC7 : String → String → Json → List (String × Json) → Option Json →
    Except String PyResponse :=
  fun _ url _ _ _ =>
    if url = "/parent7" then .ok ⟨200, "parentbody", some (jobj [("id", Json.num 7)])⟩
    else .ok ⟨200, "ok", none⟩

def envC7 : Env := ⟨httpC7, [], true⟩

def parentC7 : Json := jobj [("url", Json.str "/parent7")]

/-- A 200 response whose body parses as `\x7b"k": 1\x7d`. -/
def respC1 : PyResponse := ⟨200, "\x7b\x22k\x22: 1\x7d", some (jobj [("k", Json.num 1)])⟩

def httpC1 : String → String → Json → List (String × Json) → Option Json →
    Except String PyResponse :=
  fun _ _ _ _ _ => .ok respC1

def envC1 : Env := ⟨httpC1, [], true⟩

/-- A registry with a postprocessor that returns `None` and one that raises. -/
def regC1 : ProcessorRegistry :=
  ⟨[], [("retnone", fun _ _ => .ok PyValue.pyNone), ("boom", fun _ _ => .error "boom")], []⟩

def cfgC1 : Json :=
  jobj [("url", Json.str "/a"), ("postprocess", jobj [("name", Json.str "retnone")])]

def cfgC1boom : Json :=
  jobj [("url", Json.str "/a"), ("postprocess", jobj [("name", Json.str "boom")])]

/-! Claim theorems. -/

/-- Claim C2: with parent response `\x7b"items": [\x7b"id": 1\x7d,
\x7b"id": 2\x7d]\x7d`, `items_path = "items"` and one child spec with URL
`/child/\x7bid\x7d`, the nested orchestrator issues exactly the parent call
followed by the two resolved child calls `/child/1` and `/child/2`, in that
order. -/
theorem C2_two_items_two_child_calls :
    requestUrls (call_nested_apis envC2 emptyRegistry parentC2 [childC2]) =
      ["/parent", "/child/1", "/child/2"] := by rfl

/-- Claim C7: with parent response `\x7b"id": 7\x7d` and no `items_path`, the
whole response is one item and exactly one child call `/child/7` is issued
after the parent call. -/
theorem C7_single_dict_item_one_child_call :
    requestUrls (call_nested_apis envC7 emptyRegistry parentC7 [childC2]) =
      ["/parent7", "/child/7"] := by rfl

/-- Claim C1 is refuted by the code: when the configured postprocessor returns
`None` (config `cfgC1`) or raises (config `cfgC1boom`) on a 200 response with
JSON body `\x7b"k": 1\x7d`, `run_postprocessor` substitutes the
`requests.Response` object itself for the failure, so `call_single_api`'s
`post_result is not None` check succeeds and its re-parse fallback
(api_handler.py lines 190-196) never runs.  Default persistence receives the
response object — written out as `str(response)` = `<Response [200]>` — and
not the original parsed payload `PyValue.json (jobj [("k", 1)])` that the
claim promises. -/
theorem C1_failed_postprocessor_persists_response_object :
    (call_single_api envC1 regC1 cfgC1).2 =
      [Event.request "GET" "/a", Event.ranPost "retnone",
       Event.saved "/a" (PyValue.resp respC1) false none
         (SavedContent.pyStrOut "<Response [200]>")] ∧
    (call_single_api envC1 regC1 cfgC1boom).2 =
      [Event.request "GET" "/a", Event.ranPost "boom",
       Event.saved "/a" (PyValue.resp respC1) false none
         (SavedContent.pyStrOut "<Response [200]>")] :=
  ⟨rfl, rfl⟩

/-- The authored config of the C8 scenario, as a heap: dict 0 is the config
(`url`, a `headers` dict at address 1 holding `\x7b"A": "1"\x7d`, and a
`preprocess` dict at address 2 naming `add_headers` with
`args.headers = \x7b"B": "2"\x7d` at addresses 3/4). -/
def heapC8 : Heap :=
  ⟨[ [("url", HValue.prim (Json.str "/x")), ("headers", HValue.dict 1),
      ("preprocess", HValue.dict 2)],
     [("A", HValue.prim (Json.str "1"))],
     [("name", HValue.prim (Json.str "add_headers")), ("args", HValue.dict 3)],
     [("headers", HValue.dict 4)],
     [("B", HValue.prim (Json.str "2"))] ]⟩

def regC8 : List (String × HeapPreProcessorFn) := [("add_headers", preprocess_add_headers_heap)]

/-- Claim C8 is refuted by the code: running the Single-Call Executor's
preprocessing stage on the authored config at address 0 mutates the dict at
address 1 — the `headers` mapping the caller's original spec still references —
because `dict.copy()` in `preprocess_add_headers` is shallow and
`updated_config["headers"].update(...)` writes through the shared reference.
Before the call the original headers are `\x7b"A": "1"\x7d`; afterwards they
are `\x7b"A": "1", "B": "2"\x7d`. -/
theorem C8_preprocess_add_headers_mutates_original_spec :
    Heap.get heapC8 1 = [("A", HValue.prim (Json.str "1"))] ∧
    Heap.get (call_single_api_preprocessStage regC8 heapC8 0).1 1 =
      [("A", HValue.prim (Json.str "1")), ("B", HValue.prim (Json.str "2"))] ∧
    (Heap.get (call_single_api_preprocessStage regC8 heapC8 0).1 1).length ≠
      (Heap.get heapC8 1).length :=
  ⟨rfl, rfl, by decide⟩

/-- Every trace of `call_single_api` starts with the transport-call log entry:
whatever the transport does, line 149 of the source issues the request for the
prepared method and URL first. -/
theorem call_single_api_trace_cons (env : Env) (registry : ProcessorRegistry) (cfg : Json) :
    ∃ tl, (call_single_api env registry cfg).2 =
      Event.request (prepareRequest env (prepareConfig registry cfg)).method
        (prepareRequest env (prepareConfig registry cfg)).url :: tl := by
  simp only [call_single_api]
  cases hh : env.http (prepareRequest env (prepareConfig registry cfg)).method
      (prepareRequest env (prepareConfig registry cfg)).url
      (prepareRequest env (prepareConfig registry cfg)).params
      (prepareRequest env (prepareConfig registry cfg)).headers
      (prepareRequest env (prepareConfig registry cfg)).bodyArg with
  | error e => exact ⟨[], rfl⟩
  | ok response => exact ⟨_, rfl⟩

/-- Claim C3: an (item, child) pair whose URL still holds a brace pair after
both substitution passes is dropped: its whole contribution to the trace is the
logged skip entry, so no transport call is issued for it, and in a child list
the following pair's processing is exactly what it would have been anyway. -/
theorem C3_unresolved_placeholder_skips_pair (env : Env) (registry : ProcessorRegistry)
    (parent_data : Json) (itemFields : List (String × Json)) (c1 c2 : Json)
    (h : hasBraces (resolveChildUrl itemFields parent_data (getStrD c1 "url" "")) = true) :
    processChild env registry parent_data itemFields c1 =
      [Event.skippedChild (resolveChildUrl itemFields parent_data (getStrD c1 "url" ""))] ∧
    requestUrls (processChild env registry parent_data itemFields c1) = [] ∧
    processChildren env registry parent_data itemFields [c1, c2] =
      Event.skippedChild (resolveChildUrl itemFields parent_data (getStrD c1 "url" "")) ::
        processChild env registry parent_data itemFields c2 := by
  refine ⟨?_, ?_, ?_⟩ <;>
    simp [processChild, processChildren, h, requestUrls, List.flatMap_cons]

/-- Witness for C3: item `\x7b"id": 1\x7d`, parent `\x7b"x": 0\x7d`, first
child `/child/\x7bmissing\x7d` (unresolvable), second child
`/child/\x7bid\x7d` (resolvable, still executed). -/
theorem C3_unresolved_placeholder_skips_pair_witness :
    hasBraces (resolveChildUrl [("id", Json.num 1)] (jobj [("x", Json.num 0)])
      (getStrD (jobj [("url", Json.str "/child/\x7bmissing\x7d")]) "url" "")) = true ∧
    (processChild envC2 emptyRegistry (jobj [("x", Json.num 0)]) [("id", Json.num 1)]
        (jobj [("url", Json.str "/child/\x7bmissing\x7d")]) =
      [Event.skippedChild "/child/\x7bmissing\x7d"] ∧
    requestUrls (processChild envC2 emptyRegistry (jobj [("x", Json.num 0)])
        [("id", Json.num 1)] (jobj [("url", Json.str "/child/\x7bmissing\x7d")])) = [] ∧
    processChildren envC2 emptyRegistry (jobj [("x", Json.num 0)]) [("id", Json.num 1)]
        [jobj [("url", Json.str "/child/\x7bmissing\x7d")], childC2] =
      Event.skippedChild "/child/\x7bmissing\x7d" ::
        processChild envC2 emptyRegistry (jobj [("x", Json.num 0)]) [("id", Json.num 1)] childC2) :=
  ⟨rfl, C3_unresolved_placeholder_skips_pair envC2 emptyRegistry (jobj [("x", Json.num 0)])
    [("id", Json.num 1)] (jobj [("url", Json.str "/child/\x7bmissing\x7d")]) childC2 rfl⟩

/-- Claim C9: the skip decision is exactly the brace predicate on the final
URL — a pair is dropped if and only if the URL after both substitution passes
contains a left brace and a right brace anywhere, which also drops pairs whose
substituted values carry braces of their own (e.g. a dict-valued field) and
pairs with literal non-placeholder braces. -/
theorem C9_skip_iff_brace_predicate (env : Env) (registry : ProcessorRegistry)
    (parent_data : Json) (itemFields : List (String × Json)) (child : Json) :
    processChild env registry parent_data itemFields child =
      [Event.skippedChild (resolveChildUrl itemFields parent_data (getStrD child "url" ""))] ↔
    hasBraces (resolveChildUrl itemFields parent_data (getStrD child "url" "")) = true := by
  constructor
  · intro heq
    by_contra hb
    have hb2 : hasBraces (resolveChildUrl itemFields parent_data (getStrD child "url" "")) = false := by
      cases hfb : hasBraces (resolveChildUrl itemFields parent_data (getStrD child "url" "")) with
      | true => exact absurd hfb hb
      | false => rfl
    simp only [processChild, hb2, Bool.false_eq_true, if_false] at heq
    obtain ⟨tl, htl⟩ := call_single_api_trace_cons env registry
      (child.setKey "url" (Json.str (resolveChildUrl itemFields parent_data (getStrD child "url" ""))))
    rw [htl] at heq
    exact absurd heq (by simp)
  · intro hb
    simp [processChild, hb]

/-- Claim C4: a transport response with status ≥ 400 is persisted as an error
artifact carrying the status code and the raw body text, the transport result
is returned, and neither the postprocess hook nor the output hook runs (the
trace holds exactly the request entry and the error save). -/
theorem C4_error_status_persists_error_artifact (env : Env) (registry : ProcessorRegistry)
    (api_config : Json) (resp : PyResponse)
    (hhttp : env.http (prepareRequest env (prepareConfig registry api_config)).method
        (prepareRequest env (prepareConfig registry api_config)).url
        (prepareRequest env (prepareConfig registry api_config)).params
        (prepareRequest env (prepareConfig registry api_config)).headers
        (prepareRequest env (prepareConfig registry api_config)).bodyArg = .ok resp)
    (hcode : 400 ≤ resp.status_code) (hw : env.write_ok = true) :
    call_single_api env registry api_config =
      (some resp,
       [Event.request (prepareRequest env (prepareConfig registry api_config)).method
          (prepareRequest env (prepareConfig registry api_config)).url,
        Event.saved (prepareRequest env (prepareConfig registry api_config)).url
          (PyValue.str resp.text) true (some resp.status_code)
          (SavedContent.textOut resp.text)]) ∧
    hookRuns (call_single_api env registry api_config).2 = [] := by
  have hmain : call_single_api env registry api_config =
      (some resp,
       [Event.request (prepareRequest env (prepareConfig registry api_config)).method
          (prepareRequest env (prepareConfig registry api_config)).url,
        Event.saved (prepareRequest env (prepareConfig registry api_config)).url
          (PyValue.str resp.text) true (some resp.status_code)
          (SavedContent.textOut resp.text)]) := by
    simp only [call_single_api]
    rw [hhttp]
    simp [responseTrace, hcode, save_response, saveContent, hw]
  exact ⟨hmain, by rw [hmain]; rfl⟩

def respC4 : PyResponse := ⟨404, "not found", none⟩

def httpC4 : String → String → Json → List (String × Json) → Option Json →
    Except String PyResponse :=
  fun _ _ _ _ _ => .ok respC4

def envC4 : Env := ⟨httpC4, [], true⟩

/-- A config that does configure post and output hooks — C4 shows they are
still skipped on a 404. -/
def cfgC4 : Json :=
  jobj [("url", Json.str "/err"),
        ("postprocess", jobj [("name", Json.str "retnone")]),
        ("output", jobj [("name", Json.str "x")])]

/-- Witness for C4: a 404 with hooks configured yields exactly the request
entry and the error artifact, and no hook invocation. -/
theorem C4_error_status_persists_error_artifact_witness :
    envC4.http (prepareRequest envC4 (prepareConfig regC1 cfgC4)).method
        (prepareRequest envC4 (prepareConfig regC1 cfgC4)).url
        (prepareRequest envC4 (prepareConfig regC1 cfgC4)).params
        (prepareRequest envC4 (prepareConfig regC1 cfgC4)).headers
        (prepareRequest envC4 (prepareConfig regC1 cfgC4)).bodyArg = .ok respC4 ∧
    400 ≤ respC4.status_code ∧ envC4.write_ok = true ∧
    (call_single_api envC4 regC1 cfgC4 =
      (some respC4,
       [Event.request "GET" "/err",
        Event.saved "/err" (PyValue.str "not found") true (some 404)
          (SavedContent.textOut "not found")]) ∧
     hookRuns (call_single_api envC4 regC1 cfgC4).2 = []) :=
  ⟨rfl, by decide, rfl,
   C4_error_status_persists_error_artifact envC4 regC1 cfgC4 respC4 rfl (by decide) rfl⟩

/-- Claim C5: the three registry dispatchers are total (their return types
carry no failure, embedding "no exception propagates to the caller"), and both
an unknown name and a registered function that raises degrade to the
pass-through default of the kind: the unchanged config, the original response,
and `false`. -/
theorem C5_registry_pass_through_defaults (r : ProcessorRegistry) (name : String)
    (cfg args : Json) (resp : PyResponse) (data : PyValue) (endpoint : String) :
    (r.preprocessors.lookup name = none → r.run_preprocessor name cfg args = cfg) ∧
    (∀ f e, r.preprocessors.lookup name = some f → f cfg args = .error e →
      r.run_preprocessor name cfg args = cfg) ∧
    (r.postprocessors.lookup name = none →
      r.run_postprocessor name resp args = PyValue.resp resp) ∧
    (∀ f e, r.postprocessors.lookup name = some f → f resp args = .error e →
      r.run_postprocessor name resp args = PyValue.resp resp) ∧
    (r.output_processors.lookup name = none →
      r.run_output_processor name data endpoint args = false) ∧
    (∀ f e, r.output_processors.lookup name = some f → f data endpoint args = .error e →
      r.run_output_processor name data endpoint args = false) := by
  refine ⟨fun h => ?_, fun f e h1 h2 => ?_, fun h => ?_, fun f e h1 h2 => ?_,
    fun h => ?_, fun f e h1 h2 => ?_⟩
  · unfold ProcessorRegistry.run_preprocessor; rw [h]
  · unfold ProcessorRegistry.run_preprocessor; rw [h1]; simp [h2]
  · unfold ProcessorRegistry.run_postprocessor; rw [h]
  · unfold ProcessorRegistry.run_postprocessor; rw [h1]; simp [h2]
  · unfold ProcessorRegistry.run_output_processor; rw [h]
  · unfold ProcessorRegistry.run_output_processor; rw [h1]; simp [h2]

/-- A registry whose three tables each contain one raising processor. -/
def regC5 : ProcessorRegistry :=
  ⟨[("pboom", fun _ _ => .error "pboom")],
   [("qboom", fun _ _ => .error "qboom")],
   [("oboom", fun _ _ _ => .error "oboom")]⟩

/-- Witness for C5: unknown names and raising processors of all three kinds at
concrete inputs. -/
theorem C5_registry_pass_through_defaults_witness :
    regC5.run_preprocessor "nope" (jobj []) (jobj []) = jobj [] ∧
    regC5.run_preprocessor "pboom" (jobj []) (jobj []) = jobj [] ∧
    regC5.run_postprocessor "nope" respC1 (jobj []) = PyValue.resp respC1 ∧
    regC5.run_postprocessor "qboom" respC1 (jobj []) = PyValue.resp respC1 ∧
    regC5.run_output_processor "nope" PyValue.pyNone "/e" (jobj []) = false ∧
    regC5.run_output_processor "oboom" PyValue.pyNone "/e" (jobj []) = false :=
  ⟨(C5_registry_pass_through_defaults regC5 "nope" (jobj []) (jobj []) respC1
      PyValue.pyNone "/e").1 rfl,
   (C5_registry_pass_through_defaults regC5 "pboom" (jobj []) (jobj []) respC1
      PyValue.pyNone "/e").2.1 (fun _ _ => .error "pboom") "pboom" rfl rfl,
   (C5_registry_pass_through_defaults regC5 "nope" (jobj []) (jobj []) respC1
      PyValue.pyNone "/e").2.2.1 rfl,
   (C5_registry_pass_through_defaults regC5 "qboom" (jobj []) (jobj []) respC1
      PyValue.pyNone "/e").2.2.2.1 (fun _ _ => .error "qboom") "qboom" rfl rfl,
   (C5_registry_pass_through_defaults regC5 "nope" (jobj []) (jobj []) respC1
      PyValue.pyNone "/e").2.2.2.2.1 rfl,
   (C5_registry_pass_through_defaults regC5 "oboom" (jobj []) (jobj []) respC1
      PyValue.pyNone "/e").2.2.2.2.2 (fun _ _ _ => .error "oboom") "oboom" rfl rfl⟩

/-- Claim C6: `get_token` refreshes exactly once when the cached token is
absent or its recorded expiry is less than 4 hours away, and refreshes zero
times — returning the cached token and leaving the cache untouched — when more
than 4 hours remain. -/
theorem C6_token_refresh_policy (st : OAuthHandler) (now : Int)
    (fetch : Except String TokenFetch) :
    ((st.token = none ∨ (∃ e, st.token_expiry = some e ∧ e - now < 4 * 3600)) →
      (st.get_token now fetch).2.2 = 1) ∧
    (∀ t e, st.token = some t → st.token_expiry = some e → 4 * 3600 < e - now →
      (st.get_token now fetch).2.2 = 0 ∧ (st.get_token now fetch).1 = some t ∧
        (st.get_token now fetch).2.1 = st) := by
  constructor
  · intro h
    have hr : st.needsRefresh now = true := by
      unfold OAuthHandler.needsRefresh
      rcases h with h | ⟨e, he, hlt⟩
      · rw [h]
      · rw [he]
        cases htok : st.token with
        | none => rfl
        | some t => simp only [decide_eq_true_eq]; omega
    simp [OAuthHandler.get_token, hr]
  · intro t e ht he hgt
    have hr : st.needsRefresh now = false := by
      unfold OAuthHandler.needsRefresh
      rw [ht, he]
      simp only [decide_eq_false_iff_not]
      omega
    simp [OAuthHandler.get_token, hr, ht]

/-- Witness for C6: at `now = 0`, an expiry at 100000 s (> 4 h away) triggers
no refresh and returns the cached token; an expiry at 10000 s (< 4 h away)
and an absent token each trigger exactly one refresh. -/
theorem C6_token_refresh_policy_witness :
    ((⟨some "t", some 100000⟩ : OAuthHandler).get_token 0
        (.ok ⟨200, some "u", 7200⟩)).2.2 = 0 ∧
    ((⟨some "t", some 100000⟩ : OAuthHandler).get_token 0
        (.ok ⟨200, some "u", 7200⟩)).1 = some "t" ∧
    ((⟨some "t", some 10000⟩ : OAuthHandler).get_token 0
        (.ok ⟨200, some "u", 7200⟩)).2.2 = 1 ∧
    ((⟨none, none⟩ : OAuthHandler).get_token 0
        (.ok ⟨200, some "u", 7200⟩)).2.2 = 1 :=
  ⟨((C6_token_refresh_policy ⟨some "t", some 100000⟩ 0 (.ok ⟨200, some "u", 7200⟩)).2
      "t" 100000 rfl rfl (by decide)).1,
   ((C6_token_refresh_policy ⟨some "t", some 100000⟩ 0 (.ok ⟨200, some "u", 7200⟩)).2
      "t" 100000 rfl rfl (by decide)).2.1,
   (C6_token_refresh_policy ⟨some "t", some 10000⟩ 0 (.ok ⟨200, some "u", 7200⟩)).1
      (Or.inr ⟨10000, rfl, by decide⟩),
   (C6_token_refresh_policy ⟨none, none⟩ 0 (.ok ⟨200, some "u", 7200⟩)).1 (Or.inl rfl)⟩

/-! Helper lemmas for claim C10: the artifact-write oracle only influences
`saved`/`saveFailed` trace entries, never the returned value or the transport
calls. -/

theorem requestUrls_append (a b : List Event) :
    requestUrls (a ++ b) = requestUrls a ++ requestUrls b := by
  simp [requestUrls]

theorem requestUrls_cons_request (m u : String) (l : List Event) :
    requestUrls (Event.request m u :: l) = u :: requestUrls l := rfl

theorem requestUrls_cons_ranOutput (n : String) (l : List Event) :
    requestUrls (Event.ranOutput n :: l) = requestUrls l := rfl

theorem requestUrls_save_response (w : Bool) (u : String) (d : PyValue)
    (e : Bool) (c : Option Nat) :
    requestUrls (save_response w u d e c) = [] := by
  unfold save_response
  cases saveContent d e c with
  | none => rfl
  | some content => cases w <;> rfl

theorem requestUrls_postEventsOf (cfg : Json) (resp : PyResponse) :
    requestUrls (postEventsOf cfg resp) = [] := by
  unfold postEventsOf
  cases hj : resp.jsonBody with
  | none => rfl
  | some d =>
    dsimp only
    cases hh : hookOf cfg "postprocess" with
    | none => rfl
    | some p => obtain ⟨n, a⟩ := p; rfl

theorem requestUrls_outputStage (env : Env) (reg : ProcessorRegistry) (cfg : Json)
    (url : String) (pd : PyValue) :
    requestUrls (outputStage env reg cfg url pd) = [] := by
  unfold outputStage
  cases hh : hookOf cfg "output" with
  | none => exact requestUrls_save_response env.write_ok url pd false none
  | some p =>
    obtain ⟨n, a⟩ := p
    dsimp only
    cases hr : reg.run_output_processor n pd url a with
    | true => rfl
    | false =>
      show requestUrls
        (Event.ranOutput n :: save_response env.write_ok url pd false none) = []
      rw [requestUrls_cons_ranOutput]
      exact requestUrls_save_response env.write_ok url pd false none

theorem requestUrls_responseTrace (env : Env) (reg : ProcessorRegistry) (cfg : Json)
    (url : String) (resp : PyResponse) :
    requestUrls (responseTrace env reg cfg url resp) = [] := by
  unfold responseTrace
  by_cases h4 : 400 ≤ resp.status_code
  · rw [if_pos h4]
    exact requestUrls_save_response env.write_ok url (PyValue.str resp.text) true
      (some resp.status_code)
  · rw [if_neg h4, requestUrls_append, requestUrls_postEventsOf,
      requestUrls_outputStage]
    rfl

theorem requestUrls_call_single_api (env : Env) (reg : ProcessorRegistry) (cfg : Json) :
    requestUrls (call_single_api env reg cfg).2 =
      [(prepareRequest env (prepareConfig reg cfg)).url] := by
  simp only [call_single_api]
  cases hh : env.http (prepareRequest env (prepareConfig reg cfg)).method
      (prepareRequest env (prepareConfig reg cfg)).url
      (prepareRequest env (prepareConfig reg cfg)).params
      (prepareRequest env (prepareConfig reg cfg)).headers
      (prepareRequest env (prepareConfig reg cfg)).bodyArg with
  | error e => rfl
  | ok resp =>
    dsimp only
    rw [requestUrls_cons_request, requestUrls_responseTrace]

theorem prepareRequest_setWriteOk (env : Env) (b : Bool) (cfg : Json) :
    prepareRequest (env.setWriteOk b) cfg = prepareRequest env cfg := rfl

theorem http_setWriteOk (env : Env) (b : Bool) :
    (env.setWriteOk b).http = env.http := rfl

theorem call_single_api_fst_setWriteOk (env : Env) (b : Bool)
    (reg : ProcessorRegistry) (cfg : Json) :
    (call_single_api (env.setWriteOk b) reg cfg).1 = (call_single_api env reg cfg).1 := by
  simp only [call_single_api, prepareRequest_setWriteOk, http_setWriteOk]
  cases hh : env.http (prepareRequest env (prepareConfig reg cfg)).method
      (prepareRequest env (prepareConfig reg cfg)).url
      (prepareRequest env (prepareConfig reg cfg)).params
      (prepareRequest env (prepareConfig reg cfg)).headers
      (prepareRequest env (prepareConfig reg cfg)).bodyArg <;> rfl

theorem requestUrls_processChild_setWriteOk (env : Env) (b : Bool)
    (reg : ProcessorRegistry) (pd : Json) (itf : List (String × Json)) (c : Json) :
    requestUrls (processChild (env.setWriteOk b) reg pd itf c) =
      requestUrls (processChild env reg pd itf c) := by
  simp only [processChild]
  by_cases hbr : hasBraces (resolveChildUrl itf pd (getStrD c "url" "")) = true
  · rw [if_pos hbr, if_pos hbr]
  · rw [if_neg hbr, if_neg hbr, requestUrls_call_single_api,
      requestUrls_call_single_api, prepareRequest_setWriteOk]

theorem requestUrls_processChildren_setWriteOk (env : Env) (b : Bool)
    (reg : ProcessorRegistry) (pd : Json) (itf : List (String × Json))
    (children : List Json) :
    requestUrls (processChildren (env.setWriteOk b) reg pd itf children) =
      requestUrls (processChildren env reg pd itf children) := by
  induction children with
  | nil => rfl
  | cons c cs ih =>
    simp only [processChildren, List.flatMap_cons] at ih ⊢
    rw [requestUrls_append, requestUrls_append,
      requestUrls_processChild_setWriteOk, ih]

theorem requestUrls_processAllItems_setWriteOk (env : Env) (b : Bool)
    (reg : ProcessorRegistry) (pd : Json) (items children : List Json) :
    requestUrls (processAllItems (env.setWriteOk b) reg pd items children) =
      requestUrls (processAllItems env reg pd items children) := by
  induction items with
  | nil => rfl
  | cons i is ih =>
    simp only [processAllItems, List.flatMap_cons] at ih ⊢
    rw [requestUrls_append, requestUrls_append,
      requestUrls_processChildren_setWriteOk, ih]

/-- Claim C10: flipping the artifact-write oracle (a file write that raises
inside `_save_response`, where it is caught and only logged) changes neither
the value `call_single_api` returns, nor which transport calls it makes, nor
which transport calls a whole nested orchestration makes — the batch continues
identically. -/
theorem C10_artifact_write_failure_contained (env : Env) (b : Bool)
    (reg : ProcessorRegistry) (cfg parent : Json) (children : List Json) :
    (call_single_api (env.setWriteOk b) reg cfg).1 = (call_single_api env reg cfg).1 ∧
    requestUrls (call_single_api (env.setWriteOk b) reg cfg).2 =
      requestUrls (call_single_api env reg cfg).2 ∧
    requestUrls (call_nested_apis (env.setWriteOk b) reg parent children) =
      requestUrls (call_nested_apis env reg parent children) := by
  refine ⟨call_single_api_fst_setWriteOk env b reg cfg, ?_, ?_⟩
  · rw [requestUrls_call_single_api, requestUrls_call_single_api, prepareRequest_setWriteOk]
  · simp only [call_nested_apis]
    rw [call_single_api_fst_setWriteOk]
    cases hp : (call_single_api env reg parent).1 with
    | none =>
      rw [requestUrls_call_single_api, requestUrls_call_single_api, prepareRequest_setWriteOk]
    | some presp =>
      dsimp only
      by_cases h4 : 400 ≤ presp.status_code
      · rw [if_pos h4, if_pos h4, requestUrls_call_single_api,
          requestUrls_call_single_api, prepareRequest_setWriteOk]
      · rw [if_neg h4, if_neg h4]
        cases hb : presp.jsonBody with
        | none =>
          rw [requestUrls_call_single_api, requestUrls_call_single_api,
            prepareRequest_setWriteOk]
        | some pd =>
          dsimp only
          cases hn : (if getStrD parent "items_path" "" ≠ "" then
              navigateItemsPath pd (splitDot (getStrD parent "items_path" ""))
              else some pd) with
          | none =>
            rw [requestUrls_call_single_api, requestUrls_call_single_api,
              prepareRequest_setWriteOk]
          | some target =>
            dsimp only
            rw [requestUrls_append, requestUrls_append, requestUrls_call_single_api,
              requestUrls_call_single_api, prepareRequest_setWriteOk,
              requestUrls_processAllItems_setWriteOk]

end ApiPuller
